import Mathlib

/-!
Verification of the Podcast Text Extractor pipeline (src/app.py).

Strings from the Python program are modelled as `List Char`; `None` becomes
`Option.none`; an exception raised by an external call is modelled as an
environment field describing the call's outcome.  Each Python function of
the pipeline (`download_audio`, `get_whisper_model`, `generate_summary`,
`transcribe_audio`, and the `process_btn` driver block) is embedded as a
pure Lean function over such an environment, returning both its result and
a trace of the observable effects (stage invocations, deletion attempts,
deferred-cleanup registrations).
-/

namespace Podcast

/-- Whitespace characters recognised by Python str.split() with no
argument: space, tab, newline, carriage return, form feed, vertical tab. -/
def pyIsSpace (c : Char) : Bool :=
  c = ' ' || c = '\t' || c = '\n' || c = '\x0d' || c = '\x0c' || c = '\x0b'

/-- Helper for `pySplit`: accumulator holds the reversed characters of the
word currently being read. -/
def pySplitAux : List Char → List Char → List (List Char)
  | [], acc => if acc = [] then [] else [acc.reverse]
  | c :: cs, acc =>
    if pyIsSpace c then
      if acc = [] then pySplitAux cs [] else acc.reverse :: pySplitAux cs []
    else pySplitAux cs (c :: acc)

/-- Python text.split() with no argument: maximal runs of non-whitespace
characters, with leading, trailing and repeated whitespace ignored. -/
def pySplit (s : List Char) : List (List Char) := pySplitAux s []

/-- Derived statistics of the transcript, from src/app.py lines 371-373:
word_count = len(text.split()), char_count = len(text),
duration = len(text.split()) / 130. -/
structure Stats where
  word_count : Nat
  char_count : Nat
  duration : ℚ
  deriving Repr, DecidableEq

/-- The statistics computation of the Stats tab (src/app.py lines 371-373). -/
def computeStats (text : List Char) : Stats :=
  { word_count := (pySplit text).length
  , char_count := text.length
  , duration := ((pySplit text).length : ℚ) / 130 }

/-- Spec-side token counter: counts positions that start a maximal
whitespace-free run ("number of whitespace-separated tokens").  The Boolean
argument records whether the previous character was whitespace (true at the
start of the text). -/
def tokenStarts : List Char → Bool → Nat
  | [], _ => 0
  | c :: cs, prevSpace =>
    if pyIsSpace c then tokenStarts cs true
    else (if prevSpace then 1 else 0) + tokenStarts cs false

/-- Spec-side definition of the number of whitespace-separated tokens. -/
def specTokenCount (s : List Char) : Nat := tokenStarts s true

theorem pySplitAux_length (s : List Char) :
    ∀ acc : List Char,
      (pySplitAux s acc).length
        = tokenStarts s (acc = []) + (if acc = [] then 0 else 1) := by
  induction s with
  | nil =>
    intro acc
    by_cases h : acc = [] <;> simp [pySplitAux, tokenStarts, h]
  | cons c cs ih =>
    intro acc
    by_cases hsp : pyIsSpace c
    · by_cases h : acc = [] <;>
        simp [pySplitAux, tokenStarts, hsp, h, ih []]
    · by_cases h : acc = []
      · subst h
        have hc := ih [c]
        simp only [pySplitAux, tokenStarts, hsp] at hc ⊢
        simp at hc ⊢
        omega
      · have hc := ih (c :: acc)
        simp only [pySplitAux, tokenStarts, hsp] at hc ⊢
        simp [h] at hc ⊢
        omega

/-- The length of Python str.split() agrees with the spec-side count of
whitespace-separated tokens. -/
theorem pySplit_length_eq_specTokenCount (s : List Char) :
    (pySplit s).length = specTokenCount s := by
  have h := pySplitAux_length s []
  simpa [pySplit, specTokenCount] using h

/-! String helpers used by the embedded functions. -/

/-- True when the second list is an initial segment of the first. -/
def startsWithList : List Char → List Char → Bool
  | _, [] => true
  | [], _ :: _ => false
  | c :: cs, p :: ps => c = p && startsWithList cs ps

/-- Recursion core of Python str.replace: each step consumes at least one
character of the subject, so fuel equal to the subject's length suffices;
the fuel argument only makes the recursion structural. -/
def replaceAllFuel : Nat → List Char → List Char → List Char → List Char
  | 0, s, _, _ => s
  | fuel + 1, s, pat, rep =>
    match s with
    | [] => []
    | c :: cs =>
      if pat ≠ [] ∧ startsWithList (c :: cs) pat = true then
        rep ++ replaceAllFuel fuel (List.drop pat.length (c :: cs)) pat rep
      else
        c :: replaceAllFuel fuel cs pat rep

/-- Python str.replace(pat, rep): replaces every non-overlapping occurrence
of pat, scanning left to right (used at src/app.py line 223). -/
def replaceAll (s pat rep : List Char) : List Char :=
  replaceAllFuel s.length s pat rep

/-- Python str.lower() restricted to its effect on ASCII letters. -/
def pyToLower (c : Char) : Char :=
  if 'A' ≤ c ∧ c ≤ 'Z' then Char.ofNat (c.toNat + 32) else c

/-- Python str.lower() over the whole string. -/
def lowerList (s : List Char) : List Char := s.map pyToLower

/-- Python str.endswith(suf): the second list is a trailing segment of the
first. -/
def endsWithList (s suf : List Char) : Bool :=
  startsWithList s.reverse suf.reverse

/-! The acquisition stage (src/app.py, download_audio, lines 190-234). -/

/-- A Python datetime value as produced by datetime.now(): calendar fields
down to microsecond resolution. -/
structure PyDateTime where
  year : Nat
  month : Nat
  day : Nat
  hour : Nat
  minute : Nat
  second : Nat
  microsecond : Nat
  deriving Repr, DecidableEq

/-- Field ranges of a well-formed Python datetime value. -/
def PyDateTime.valid (t : PyDateTime) : Prop :=
  1 ≤ t.year ∧ t.year ≤ 9999 ∧ 1 ≤ t.month ∧ t.month ≤ 12 ∧
    1 ≤ t.day ∧ t.day ≤ 31 ∧ t.hour ≤ 23 ∧ t.minute ≤ 59 ∧
    t.second ≤ 59 ∧ t.microsecond ≤ 999999

instance (t : PyDateTime) : Decidable t.valid := by
  unfold PyDateTime.valid; infer_instance

/-- Character codes of the four zero-padded decimal digits of a number
below 10000 (48 is the code of the digit 0). -/
def pad4 (n : Nat) : List Nat :=
  [48 + n / 1000 % 10, 48 + n / 100 % 10, 48 + n / 10 % 10, 48 + n % 10]

/-- Character codes of the two zero-padded decimal digits of a number below
100. -/
def pad2 (n : Nat) : List Nat := [48 + n / 10 % 10, 48 + n % 10]

/-- Character codes of a literal string. -/
def codesOf (s : String) : List Nat := s.toList.map Char.toNat

/-- timestamp = datetime.now().strftime(percentY percentm percentd
underscore percentH percentM percentS) at src/app.py line 198, rendered as
the list of character codes of the formatted string (95 is the code of the
underscore separator).  Sub-second information is discarded by the
format. -/
def strftimeStamp (t : PyDateTime) : List Nat :=
  pad4 t.year ++ pad2 t.month ++ pad2 t.day ++ [95] ++
    pad2 t.hour ++ pad2 t.minute ++ pad2 t.second

/-- The unique output filename constructed at src/app.py line 199 (as
character codes), before the fetcher substitutes the extension
placeholder. -/
def outputTemplateName (t : PyDateTime) : List Nat :=
  codesOf "podcast_" ++ strftimeStamp t ++ codesOf ".%(ext)s"

/-- Outcomes of the external calls made by download_audio: whether FFmpeg
is present at the configured path, the filename prepared by the fetcher
(none when extract_info raises), and the state of the filesystem when the
post-fetch existence check runs. -/
structure FetchEnv where
  ffmpegExists : Bool
  fetchResult : Option (List Char)
  fileExists : List Char → Bool

/-- audio_path = filename.replace(dotwebm, dotmp3).replace(dotm4a, dotmp3)
from src/app.py line 223. -/
def mp3OfName (filename : List Char) : List Char :=
  replaceAll (replaceAll filename (".webm").toList (".mp3").toList)
    (".m4a").toList (".mp3").toList

/-- download_audio (src/app.py lines 190-234).  Returns the audio path on
success and none on every error path (missing FFmpeg, fetcher exception,
missing output file). -/
def download_audio (env : FetchEnv) : Option (List Char) :=
  if ¬ env.ffmpegExists then none
  else
    match env.fetchResult with
    | none => none
    | some filename =>
      let audio_path := mp3OfName filename
      if env.fileExists audio_path then some audio_path else none

/-! The model cache (src/app.py, get_whisper_model, lines 236-249). -/

/-- State of the st.cache_resource cache for get_whisper_model: the stored
return value per model-size key, plus a counter of underlying
whisper.load_model calls. -/
structure CacheState where
  entries : List (List Char × Option Nat)
  loadCalls : Nat
  deriving Repr, DecidableEq

/-- Association-list lookup of a cached return value. -/
def lookupEntry : List (List Char × Option Nat) → List Char → Option (Option Nat)
  | [], _ => none
  | (k, v) :: es, key => if k = key then some v else lookupEntry es key

/-- The empty model cache at process start. -/
def initialCache : CacheState := ⟨[], 0⟩

/-- get_whisper_model (src/app.py lines 236-249) together with its
st.cache_resource wrapper.  On a cache hit the stored return value is
returned unchanged; on a miss the body runs: whisper.load_model, whose
outcome on the k-th underlying call is load k (none models a raised
exception, which the body catches to return None), and the body's return
value — None included — is stored in the cache for that size. -/
def get_whisper_model (load : Nat → Option Nat) (st : CacheState)
    (model_size : List Char) : Option Nat × CacheState :=
  match lookupEntry st.entries model_size with
  | some v => (v, st)
  | none =>
    let r := load st.loadCalls
    (r, ⟨(model_size, r) :: st.entries, st.loadCalls + 1⟩)

/-! The summarization stage (src/app.py, generate_summary, lines 250-273). -/

/-- Sidebar option Short (src/app.py line 162). -/
def lenShort : List Char := ("Short (1-2 sentences)").toList

/-- Sidebar option Medium (src/app.py line 162). -/
def lenMedium : List Char := ("Medium (paragraph)").toList

/-- Sidebar option Detailed (src/app.py line 162). -/
def lenDetailed : List Char := ("Detailed (multiple paragraphs)").toList

/-- Instruction mapped to the Short verbosity (src/app.py line 255). -/
def instrShort : List Char :=
  ("Provide a very concise summary in 1-2 sentences.").toList

/-- Instruction mapped to the Medium verbosity (src/app.py line 256). -/
def instrMedium : List Char :=
  ("Provide a summary in one short paragraph.").toList

/-- Instruction mapped to the Detailed verbosity (src/app.py line 257). -/
def instrDetailed : List Char :=
  ("Provide a detailed summary in multiple paragraphs.").toList

/-- The length_prompt dictionary lookup at src/app.py lines 254-258: some
instruction for the three supported keys; none models the KeyError raised
on any other key. -/
def length_prompt (length : List Char) : Option (List Char) :=
  if length = lenShort then some instrShort
  else if length = lenMedium then some instrMedium
  else if length = lenDetailed then some instrDetailed
  else none

/-- The prompt f-string built at src/app.py lines 260-267. -/
def promptOf (instr text : List Char) : List Char :=
  ("\n            Please summarize the following podcast transcript clearly and accurately.\n            ").toList
    ++ instr
    ++ ("\n            Focus on the key points and main ideas.\n            \n            Transcript:\n            ").toList
    ++ text
    ++ ("\n            ").toList

/-- Result of generate_summary together with the number of calls made to
the external summarization service. -/
structure SummaryTrace where
  result : Option (List Char)
  serviceCalls : Nat
  deriving Repr, DecidableEq

/-- generate_summary (src/app.py lines 250-273).  serviceResult gives the
outcome of model.generate_content on a prompt (none models a raised
exception); the KeyError raised by the verbosity lookup on an unsupported
key is caught by the same except block and yields None before any service
call. -/
def generate_summary (serviceResult : List Char → Option (List Char))
    (text length : List Char) : SummaryTrace :=
  match length_prompt length with
  | none => ⟨none, 0⟩
  | some instr =>
    match serviceResult (promptOf instr text) with
    | none => ⟨none, 1⟩
    | some s => ⟨some s, 1⟩

/-! The transcription stage (src/app.py, transcribe_audio, lines 274-319). -/

/-- Outcome of the os.unlink call on the temporary WAV copy: success, a
PermissionError (the only exception class the code handles), or any other
exception. -/
inductive UnlinkOutcome
  | ok
  | permissionDenied
  | otherFailure
  deriving Repr, DecidableEq

/-- Outcomes of the external calls made by one transcribe_audio run:
whether the source file exists (line 278), the value produced by
get_whisper_model (line 283), whether decode/export or the byte copy
succeeds (lines 294-300), the engine result (line 296/301, none models a
raised exception), whether the temporary file still exists at cleanup
(line 306), and the outcome of os.unlink (line 308). -/
structure TransEnv where
  sourceExists : Bool
  modelResult : Option Nat
  normalizeOk : Bool
  engineResult : Option (List Char)
  tempExistsAtCleanup : Bool
  unlinkOutcome : UnlinkOutcome

/-- The two possible normalization treatments of the acquired file. -/
inductive NormAction
  | reencode
  | copyBytes
  deriving Repr, DecidableEq

/-- The branch chosen at src/app.py line 293: re-encode unless the path,
lowercased, ends with the four characters dot-w-a-v. -/
def normalizationAction (audio_path : List Char) : NormAction :=
  if ¬ endsWithList (lowerList audio_path) ((".wav").toList) then .reencode
  else .copyBytes

/-- Observable behaviour of one transcribe_audio run: the returned value,
whether the temporary WAV copy was created, which normalization branch ran,
how often the engine was invoked, how many deletion attempts were made on
the temporary copy, and whether a deferred atexit cleanup was
registered. -/
structure TransTrace where
  result : Option (List Char)
  tempCreated : Bool
  action : Option NormAction
  engineCalls : Nat
  tempDeleteAttempts : Nat
  deferredRegistered : Bool
  deriving Repr, DecidableEq

/-- transcribe_audio (src/app.py lines 274-319).  The finally block always
runs once the temporary file was created; an os.unlink exception other than
PermissionError propagates out of the finally block, replaces any in-flight
result or exception, and is caught by the outer except which returns
None. -/
def transcribe_audio (env : TransEnv) (audio_path : List Char) : TransTrace :=
  if ¬ env.sourceExists then ⟨none, false, none, 0, 0, false⟩
  else
    match env.modelResult with
    | none => ⟨none, false, none, 0, 0, false⟩
    | some _ =>
      let act := normalizationAction audio_path
      let innerResult : Option (List Char) :=
        if env.normalizeOk then env.engineResult else none
      let engineCalls := if env.normalizeOk then 1 else 0
      let attempts := if env.tempExistsAtCleanup then 1 else 0
      let deferred :=
        env.tempExistsAtCleanup && (env.unlinkOutcome == .permissionDenied)
      let cleanupRaised :=
        env.tempExistsAtCleanup && (env.unlinkOutcome == .otherFailure)
      let result := if cleanupRaised then none else innerResult
      ⟨result, true, some act, engineCalls, attempts, deferred⟩

/-! The end-to-end run (src/app.py, process_btn block, lines 321-379). -/

/-- Python truthiness of a value that is None or a string. -/
def truthy : Option (List Char) → Bool
  | none => false
  | some s => !s.isEmpty

/-- The three mutually exclusive shapes of a finished run: nothing shown
(failure at some stage), transcript shown with the summary-unavailable
warning, or transcript and summary both shown. -/
inductive Outcome
  | failure
  | transcriptOnly (t : List Char)
  | transcriptAndSummary (t s : List Char)
  deriving Repr, DecidableEq

/-- Everything the environment decides during one full pipeline run. -/
structure RunEnv where
  url : List Char
  fetch : FetchEnv
  trans : TransEnv
  summaryService : List Char → Option (List Char)
  summary_length : List Char
  acquiredExistsAtCleanup : Bool

/-- Observable behaviour of one full run of the process_btn block. -/
structure RunTrace where
  transcribeInvoked : Bool
  summaryInvoked : Bool
  acquiredDeleteAttempts : Nat
  tempDeleteAttempts : Nat
  outcome : Outcome

/-- The process_btn pipeline block (src/app.py lines 321-379):
download_audio, then — only when it returned a truthy path — transcribe,
then — only when the transcript is truthy — delete the acquired file if it
still exists, display the transcript, and call generate_summary, warning
when the summary is falsy. -/
def runPipeline (env : RunEnv) : RunTrace :=
  if env.url = [] then ⟨false, false, 0, 0, .failure⟩
  else
    match download_audio env.fetch with
    | none => ⟨false, false, 0, 0, .failure⟩
    | some audio_path =>
      if audio_path = [] then ⟨false, false, 0, 0, .failure⟩
      else
        let tr := transcribe_audio env.trans audio_path
        match tr.result with
        | none => ⟨true, false, 0, tr.tempDeleteAttempts, .failure⟩
        | some text =>
          if text = [] then ⟨true, false, 0, tr.tempDeleteAttempts, .failure⟩
          else
            let delAcq := if env.acquiredExistsAtCleanup then 1 else 0
            let sres := generate_summary env.summaryService text env.summary_length
            let outc :=
              match sres.result with
              | some s =>
                if s = [] then Outcome.transcriptOnly text
                else Outcome.transcriptAndSummary text s
              | none => Outcome.transcriptOnly text
            ⟨true, true, delAcq, tr.tempDeleteAttempts, outc⟩

/-! Concrete environments used to instantiate the theorems. -/

/-- A fetch environment in which every external call succeeds. -/
def okFetch : FetchEnv :=
  ⟨true, some (("podcast_20240101_000000.mp3").toList), fun _ => true⟩

/-- A fetch environment in which the fetcher returns a filename but the
expected output file is absent from the disk. -/
def missingFetch : FetchEnv :=
  ⟨true, some (("a.webm").toList), fun _ => false⟩

/-- A transcription environment in which every external call succeeds. -/
def okTrans : TransEnv :=
  ⟨true, some 0, true, some (("hello world").toList), true, UnlinkOutcome.ok⟩

/-! Claim theorems. -/

/-- C9: for every transcript text, the derived statistics are computed as:
word count = the number of whitespace-separated tokens of the text,
character count = the length of the text, and estimated spoken duration =
word_count / 130 minutes. -/
theorem C9_statistics (text : List Char) :
    (computeStats text).word_count = specTokenCount text ∧
    (computeStats text).char_count = text.length ∧
    (computeStats text).duration = ((computeStats text).word_count : ℚ) / 130 :=
  ⟨pySplit_length_eq_specTokenCount text, rfl, rfl⟩

/-- C10: in the normalization step, the choice between byte-copying and
re-encoding is determined solely by a case-insensitive check that the
acquired path ends in dot-wav: the recorded action is the same under any
two environments (the file content, which the environment describes, is
never inspected), it equals normalizationAction of the path alone, and it
is the byte copy exactly when the lowercased path ends in dot-wav. -/
theorem C10_normalization_by_suffix_only (env env2 : TransEnv)
    (audio_path : List Char)
    (hs : env.sourceExists = true) (hmo : env.modelResult.isSome = true)
    (hs2 : env2.sourceExists = true) (hmo2 : env2.modelResult.isSome = true) :
    (transcribe_audio env audio_path).action
        = (transcribe_audio env2 audio_path).action ∧
    (transcribe_audio env audio_path).action
        = some (normalizationAction audio_path) ∧
    ((transcribe_audio env audio_path).action = some NormAction.copyBytes ↔
      endsWithList (lowerList audio_path) ((".wav").toList) = true) := by
  obtain ⟨m, hm⟩ := Option.isSome_iff_exists.mp hmo
  obtain ⟨m2, hm2⟩ := Option.isSome_iff_exists.mp hmo2
  refine ⟨?_, ?_, ?_⟩
  · simp [transcribe_audio, hs, hs2, hm, hm2]
  · simp [transcribe_audio, hs, hm]
  · by_cases hw : endsWithList (lowerList audio_path) ((".wav").toList) = true <;>
      simp [transcribe_audio, hs, hm, normalizationAction, hw]

/-- Instantiation of C10_normalization_by_suffix_only at a concrete
environment and a concrete non-wav path. -/
theorem C10_witness :
    (transcribe_audio okTrans (("a.mp3").toList)).action
        = (transcribe_audio okTrans (("a.mp3").toList)).action ∧
    (transcribe_audio okTrans (("a.mp3").toList)).action
        = some (normalizationAction (("a.mp3").toList)) ∧
    ((transcribe_audio okTrans (("a.mp3").toList)).action
        = some NormAction.copyBytes ↔
      endsWithList (lowerList (("a.mp3").toList)) ((".wav").toList) = true) :=
  C10_normalization_by_suffix_only okTrans okTrans (("a.mp3").toList)
    rfl rfl rfl rfl

/-- C8: the verbosity-to-instruction mapping assigns a distinct fixed
instruction string to each of the three supported verbosity values, and for
any unsupported verbosity value the call returns None with zero calls made
to the summarization service. -/
theorem C8_verbosity_mapping (serviceResult : List Char → Option (List Char))
    (text length : List Char)
    (h1 : length ≠ lenShort) (h2 : length ≠ lenMedium)
    (h3 : length ≠ lenDetailed) :
    (length_prompt lenShort = some instrShort ∧
      length_prompt lenMedium = some instrMedium ∧
      length_prompt lenDetailed = some instrDetailed ∧
      instrShort ≠ instrMedium ∧ instrShort ≠ instrDetailed ∧
      instrMedium ≠ instrDetailed) ∧
    (generate_summary serviceResult text length).serviceCalls = 0 ∧
    (generate_summary serviceResult text length).result = none := by
  refine ⟨⟨by decide, by decide, by decide, by decide, by decide, by decide⟩,
    ?_, ?_⟩ <;>
    simp [generate_summary, length_prompt, h1, h2, h3]

/-- Instantiation of C8_verbosity_mapping at a concrete unsupported
verbosity value. -/
theorem C8_witness :
    (length_prompt lenShort = some instrShort ∧
      length_prompt lenMedium = some instrMedium ∧
      length_prompt lenDetailed = some instrDetailed ∧
      instrShort ≠ instrMedium ∧ instrShort ≠ instrDetailed ∧
      instrMedium ≠ instrDetailed) ∧
    (generate_summary (fun _ => some (("s").toList)) (("t").toList)
      (("Huge").toList)).serviceCalls = 0 ∧
    (generate_summary (fun _ => some (("s").toList)) (("t").toList)
      (("Huge").toList)).result = none :=
  C8_verbosity_mapping (fun _ => some (("s").toList)) (("t").toList)
    (("Huge").toList) (by decide) (by decide) (by decide)

/-- C6: the acquisition stage returns a media path only when the expected
output file exists on disk after the fetch call returns (and the returned
path is exactly the expected one); when the fetcher returns a filename but
the expected file is absent, the stage returns a failure instead of a
path. -/
theorem C6_postcondition_check (env : FetchEnv) :
    (∀ p, download_audio env = some p →
      env.fileExists p = true ∧
      ∃ filename, env.fetchResult = some filename ∧ p = mp3OfName filename) ∧
    (∀ filename, env.fetchResult = some filename →
      env.fileExists (mp3OfName filename) = false →
      download_audio env = none) := by
  constructor
  · intro p hp
    unfold download_audio at hp
    by_cases hf : env.ffmpegExists
    · cases hres : env.fetchResult with
      | none => simp [hf, hres] at hp
      | some filename =>
        by_cases hex : env.fileExists (mp3OfName filename)
        · simp [hf, hres, hex] at hp
          exact ⟨hp ▸ hex, filename, rfl, hp.symm⟩
        · simp [hf, hres, hex] at hp
    · simp [hf] at hp
  · intro filename hres hex
    by_cases hf : env.ffmpegExists <;>
      simp [download_audio, hf, hres, hex]

/-- Instantiation of C6_postcondition_check at a concrete environment in
which the expected file is absent after the fetch. -/
theorem C6_witness :
    download_audio missingFetch = none :=
  (C6_postcondition_check missingFetch).2 (("a.webm").toList) rfl rfl

/-- C5: summarization failure is non-fatal: on every run that produced a
truthy transcript, if the summarization call returns None the transcript is
still shown and the explicit summary-unavailable warning branch is taken
(outcome transcriptOnly); only the summary is withheld. -/
theorem C5_summary_nonfatal (env : RunEnv) (audio_path text : List Char)
    (hurl : env.url ≠ [])
    (hdl : download_audio env.fetch = some audio_path) (hap : audio_path ≠ [])
    (htr : (transcribe_audio env.trans audio_path).result = some text)
    (htext : text ≠ [])
    (hsum : (generate_summary env.summaryService text env.summary_length).result
      = none) :
    (runPipeline env).outcome = Outcome.transcriptOnly text ∧
    (runPipeline env).summaryInvoked = true := by
  constructor <;> simp [runPipeline, hurl, hdl, hap, htr, htext, hsum]

/-- A run environment in which everything succeeds except the summarization
service, which raises on every call. -/
def summaryOutageEnv : RunEnv :=
  ⟨("u").toList, okFetch, okTrans, fun _ => none, lenMedium, true⟩

/-- Instantiation of C5_summary_nonfatal at a concrete run with a
summarization outage. -/
theorem C5_witness :
    (runPipeline summaryOutageEnv).outcome
        = Outcome.transcriptOnly (("hello world").toList) ∧
    (runPipeline summaryOutageEnv).summaryInvoked = true :=
  C5_summary_nonfatal summaryOutageEnv
    (("podcast_20240101_000000.mp3").toList) (("hello world").toList)
    (by decide) (by decide) (by decide) (by decide) (by decide) rfl

/-- C4: each run produces exactly one outcome value of the three-way type
(failure, transcript only, transcript and summary), the function being
total and deterministic; when acquisition fails (empty URL or falsy
download result) neither transcription nor summarization is invoked and the
outcome is failure; when transcription fails summarization is not invoked
and the outcome is failure; and a transcript-and-summary outcome carries
exactly the transcript produced by the transcription stage — a summary is
never produced without a transcript. -/
theorem C4_short_circuit (env : RunEnv) :
    ((env.url = [] ∨ ¬ truthy (download_audio env.fetch)) →
      runPipeline env = ⟨false, false, 0, 0, Outcome.failure⟩) ∧
    (∀ audio_path, download_audio env.fetch = some audio_path →
      audio_path ≠ [] → env.url ≠ [] →
      ¬ truthy (transcribe_audio env.trans audio_path).result →
      (runPipeline env).summaryInvoked = false ∧
      (runPipeline env).outcome = Outcome.failure) ∧
    (∀ t s, (runPipeline env).outcome = Outcome.transcriptAndSummary t s →
      ∃ audio_path, download_audio env.fetch = some audio_path ∧
        (transcribe_audio env.trans audio_path).result = some t ∧ t ≠ []) := by
  refine ⟨?_, ?_, ?_⟩
  · rintro (hurl | hdl)
    · simp [runPipeline, hurl]
    · by_cases hurl : env.url = []
      · simp [runPipeline, hurl]
      · cases hres : download_audio env.fetch with
        | none => simp [runPipeline, hurl, hres]
        | some p =>
          cases p with
          | nil => simp [runPipeline, hurl, hres]
          | cons c cs => simp [truthy, hres] at hdl
  · intro audio_path hdl hap hurl htr
    cases hres : (transcribe_audio env.trans audio_path).result with
    | none => constructor <;> simp [runPipeline, hurl, hdl, hap, hres]
    | some t =>
      cases t with
      | nil => constructor <;> simp [runPipeline, hurl, hdl, hap, hres]
      | cons c cs => simp [truthy, hres] at htr
  · intro t s hout
    by_cases hurl : env.url = []
    · simp [runPipeline, hurl] at hout
    · cases hres : download_audio env.fetch with
      | none => simp [runPipeline, hurl, hres] at hout
      | some p =>
        by_cases hap : p = []
        · simp [runPipeline, hurl, hres, hap] at hout
        · cases htr : (transcribe_audio env.trans p).result with
          | none => simp [runPipeline, hurl, hres, hap, htr] at hout
          | some tt =>
            by_cases htt : tt = []
            · simp [runPipeline, hurl, hres, hap, htr, htt] at hout
            · refine ⟨p, rfl, ?_⟩
              simp [runPipeline, hurl, hres, hap, htr, htt] at hout
              cases hsr : (generate_summary env.summaryService tt
                  env.summary_length).result with
              | none => simp [hsr] at hout
              | some ss =>
                by_cases hss : ss = []
                · simp [hsr, hss] at hout
                · simp [hsr, hss] at hout
                  refine ⟨by rw [htr, hout.1], ?_⟩
                  rw [← hout.1]
                  exact htt

/-- A run environment whose request has an empty URL. -/
def emptyUrlEnv : RunEnv :=
  ⟨[], okFetch, okTrans, fun _ => some (("s").toList), lenMedium, true⟩

/-- Instantiation of C4_short_circuit at a concrete failing acquisition:
the whole trace is the failure trace with no stage invoked. -/
theorem C4_witness :
    runPipeline emptyUrlEnv = ⟨false, false, 0, 0, Outcome.failure⟩ :=
  (C4_short_circuit emptyUrlEnv).1 (Or.inl rfl)

/-- A transcription environment in which the engine raises after a
successful normalization. -/
def engineFailTrans : TransEnv :=
  ⟨true, some 0, true, none, true, UnlinkOutcome.ok⟩

/-- A run environment in which acquisition succeeds and transcription then
fails at the engine. -/
def engineFailEnv : RunEnv :=
  ⟨("u").toList, okFetch, engineFailTrans, fun _ => some (("s").toList),
    lenMedium, true⟩

/-- C1 fails on the code: in this concrete run an AcquiredMedia file is
created (download_audio returns a path), the run then fails at the engine,
and zero deletion attempts are made on the acquired file before the run
ends — the cleanup at src/app.py lines 334-336 sits inside the
transcription-success branch, so the acquired file is orphaned. -/
theorem C1_counterexample :
    (download_audio engineFailEnv.fetch).isSome = true ∧
    (runPipeline engineFailEnv).outcome = Outcome.failure ∧
    (runPipeline engineFailEnv).acquiredDeleteAttempts = 0 := by decide

/-- C1 amended: every TemporaryAudioCopy created receives exactly one
deletion attempt on every exit path of the transcription stage (whenever it
still exists at cleanup time), and that count is what the whole run
performs; the AcquiredMedia file, however, receives exactly one deletion
attempt only on runs whose transcription result is truthy (and the file
still exists at cleanup), and zero deletion attempts when transcription
fails. -/
theorem C1_amended (env : RunEnv) (audio_path : List Char)
    (hurl : env.url ≠ [])
    (hdl : download_audio env.fetch = some audio_path) (hap : audio_path ≠ []) :
    ((transcribe_audio env.trans audio_path).tempCreated = true →
      (transcribe_audio env.trans audio_path).tempDeleteAttempts
        = (if env.trans.tempExistsAtCleanup then 1 else 0)) ∧
    (runPipeline env).tempDeleteAttempts
      = (transcribe_audio env.trans audio_path).tempDeleteAttempts ∧
    (runPipeline env).acquiredDeleteAttempts
      = (if truthy (transcribe_audio env.trans audio_path).result
            && env.acquiredExistsAtCleanup then 1 else 0) := by
  refine ⟨?_, ?_, ?_⟩
  · intro hc
    by_cases hs : env.trans.sourceExists
    · cases hm : env.trans.modelResult with
      | none => simp [transcribe_audio, hs, hm] at hc
      | some m => simp [transcribe_audio, hs, hm]
    · simp [transcribe_audio, hs] at hc
  · cases htr : (transcribe_audio env.trans audio_path).result with
    | none => simp [runPipeline, hurl, hdl, hap, htr]
    | some t =>
      cases t with
      | nil => simp [runPipeline, hurl, hdl, hap, htr]
      | cons c cs => simp [runPipeline, hurl, hdl, hap, htr]
  · cases htr : (transcribe_audio env.trans audio_path).result with
    | none => simp [runPipeline, hurl, hdl, hap, htr, truthy]
    | some t =>
      cases t with
      | nil => simp [runPipeline, hurl, hdl, hap, htr, truthy]
      | cons c cs => simp [runPipeline, hurl, hdl, hap, htr, truthy]

/-- A run environment in which every stage succeeds. -/
def okRunEnv : RunEnv :=
  ⟨("u").toList, okFetch, okTrans, fun _ => some (("sum").toList),
    lenMedium, true⟩

/-- Instantiation of C1_amended at a concrete fully successful run. -/
theorem C1_witness :
    (transcribe_audio okRunEnv.trans
        (("podcast_20240101_000000.mp3").toList)).tempDeleteAttempts
      = (if okRunEnv.trans.tempExistsAtCleanup then 1 else 0) ∧
    (runPipeline okRunEnv).tempDeleteAttempts
      = (transcribe_audio okRunEnv.trans
          (("podcast_20240101_000000.mp3").toList)).tempDeleteAttempts ∧
    (runPipeline okRunEnv).acquiredDeleteAttempts
      = (if truthy (transcribe_audio okRunEnv.trans
            (("podcast_20240101_000000.mp3").toList)).result
            && okRunEnv.acquiredExistsAtCleanup then 1 else 0) :=
  ⟨(C1_amended okRunEnv (("podcast_20240101_000000.mp3").toList)
      (by decide) (by decide) (by decide)).1 (by decide),
   (C1_amended okRunEnv (("podcast_20240101_000000.mp3").toList)
      (by decide) (by decide) (by decide)).2⟩

/-- Behaviour of whisper.load_model in which the first underlying call
raises and every later call would succeed. -/
def failThenOk : Nat → Option Nat := fun k => if k = 0 then none else some 7

/-- C2 fails on the code: with a first load failure, the first request
fails as claimed, but st.cache_resource stores the None returned by the
except branch, so the cache is not left empty for that size: a second
request for the same size returns the cached None without a second
whisper.load_model call, even though that second call would have
succeeded. -/
theorem C2_counterexample :
    (get_whisper_model failThenOk initialCache (("small").toList)).1 = none ∧
    lookupEntry (get_whisper_model failThenOk initialCache
        (("small").toList)).2.entries (("small").toList) = some none ∧
    (get_whisper_model failThenOk
        (get_whisper_model failThenOk initialCache (("small").toList)).2
        (("small").toList)).1 = none ∧
    (get_whisper_model failThenOk
        (get_whisper_model failThenOk initialCache (("small").toList)).2
        (("small").toList)).2.loadCalls = 1 ∧
    failThenOk 1 = some 7 := by decide

/-- C2 amended: if construction fails for a size, that request fails with a
model-load error (transcribe_audio returns None when the model value is
None), but the cache is not left empty for that size: the None return value
is cached, and a subsequent request for the same size returns the cached
None without retrying construction. -/
theorem C2_amended (load : Nat → Option Nat) (size audio_path : List Char)
    (env : TransEnv) (h0 : load 0 = none) (hm : env.modelResult = none) :
    (get_whisper_model load initialCache size).1 = none ∧
    (transcribe_audio env audio_path).result = none ∧
    lookupEntry (get_whisper_model load initialCache size).2.entries size
      = some none ∧
    (get_whisper_model load (get_whisper_model load initialCache size).2
        size).1 = none ∧
    (get_whisper_model load (get_whisper_model load initialCache size).2
        size).2.loadCalls = 1 := by
  refine ⟨?_, ?_, ?_, ?_, ?_⟩
  · simp [get_whisper_model, initialCache, lookupEntry, h0]
  · by_cases hs : env.sourceExists <;> simp [transcribe_audio, hs, hm]
  · simp [get_whisper_model, initialCache, lookupEntry, h0]
  · simp [get_whisper_model, initialCache, lookupEntry, h0]
  · simp [get_whisper_model, initialCache, lookupEntry, h0]

/-- A transcription environment whose model value is the cached None. -/
def noModelTrans : TransEnv :=
  ⟨true, none, true, some (("hello").toList), true, UnlinkOutcome.ok⟩

/-- Instantiation of C2_amended at the concrete first-load-fails
behaviour. -/
theorem C2_witness :
    (get_whisper_model failThenOk initialCache (("small").toList)).1 = none ∧
    (transcribe_audio noModelTrans (("a.mp3").toList)).result = none ∧
    lookupEntry (get_whisper_model failThenOk initialCache
        (("small").toList)).2.entries (("small").toList) = some none ∧
    (get_whisper_model failThenOk
        (get_whisper_model failThenOk initialCache (("small").toList)).2
        (("small").toList)).1 = none ∧
    (get_whisper_model failThenOk
        (get_whisper_model failThenOk initialCache (("small").toList)).2
        (("small").toList)).2.loadCalls = 1 :=
  C2_amended failThenOk (("small").toList) (("a.mp3").toList) noModelTrans
    rfl rfl

/-- A transcription environment in which everything succeeds but deleting
the temporary WAV copy fails with an exception other than
PermissionError. -/
def lockedOtherTrans : TransEnv :=
  ⟨true, some 0, true, some (("hello").toList), true,
    UnlinkOutcome.otherFailure⟩

/-- C3 fails on the code: in this run the transcription itself succeeded
and one deletion attempt was made on the temporary copy, but the deletion
failure is not a PermissionError, so it propagates out of the finally
block, is caught by the outer except, and the stage returns None — the
deletion failure is surfaced as a request failure and the transcript is
lost. -/
theorem C3_counterexample :
    lockedOtherTrans.engineResult = some (("hello").toList) ∧
    (transcribe_audio lockedOtherTrans
        (("a.mp3").toList)).tempDeleteAttempts = 1 ∧
    (transcribe_audio lockedOtherTrans (("a.mp3").toList)).result = none := by
  decide

/-- C3 amended: only a PermissionError on deletion of the temporary copy is
downgraded: when transcription succeeded, a successful deletion or a
PermissionError still returns the transcript, the PermissionError case
additionally registering the deferred atexit cleanup; any other deletion
exception is surfaced and the stage returns None. Exactly one deletion
attempt is made in all three cases. -/
theorem C3_amended (env : TransEnv) (audio_path text : List Char) (m : Nat)
    (hs : env.sourceExists = true) (hm : env.modelResult = some m)
    (hn : env.normalizeOk = true) (he : env.engineResult = some text)
    (hte : env.tempExistsAtCleanup = true) :
    (env.unlinkOutcome = UnlinkOutcome.ok →
      (transcribe_audio env audio_path).result = some text ∧
      (transcribe_audio env audio_path).deferredRegistered = false) ∧
    (env.unlinkOutcome = UnlinkOutcome.permissionDenied →
      (transcribe_audio env audio_path).result = some text ∧
      (transcribe_audio env audio_path).deferredRegistered = true) ∧
    (env.unlinkOutcome = UnlinkOutcome.otherFailure →
      (transcribe_audio env audio_path).result = none) ∧
    (transcribe_audio env audio_path).tempDeleteAttempts = 1 := by
  refine ⟨?_, ?_, ?_, ?_⟩ <;>
    first
      | (intro hu; simp [transcribe_audio, hs, hm, hn, he, hte, hu])
      | simp [transcribe_audio, hs, hm, hte]

/-- A transcription environment in which everything succeeds but deleting
the temporary WAV copy fails with a PermissionError. -/
def lockedPermTrans : TransEnv :=
  ⟨true, some 0, true, some (("hello").toList), true,
    UnlinkOutcome.permissionDenied⟩

/-- Instantiation of C3_amended at the concrete PermissionError
environment: the transcript is returned, the deferred cleanup is
registered, and exactly one deletion attempt was made. -/
theorem C3_witness :
    ((transcribe_audio lockedPermTrans (("a.mp3").toList)).result
        = some (("hello").toList) ∧
      (transcribe_audio lockedPermTrans
          (("a.mp3").toList)).deferredRegistered = true) ∧
    (transcribe_audio lockedPermTrans
        (("a.mp3").toList)).tempDeleteAttempts = 1 :=
  ⟨(C3_amended lockedPermTrans (("a.mp3").toList) (("hello").toList) 0
      rfl rfl rfl rfl rfl).2.1 rfl,
   (C3_amended lockedPermTrans (("a.mp3").toList) (("hello").toList) 0
      rfl rfl rfl rfl rfl).2.2.2⟩

/-- An acquisition time at the start of a calendar second. -/
def sameSecondA : PyDateTime := ⟨2024, 1, 1, 0, 0, 0, 0⟩

/-- An acquisition time half a second later, within the same calendar
second. -/
def sameSecondB : PyDateTime := ⟨2024, 1, 1, 0, 0, 0, 500000⟩

/-- C7 fails on the code: these two acquisition times are distinct (and
both well-formed), yet the strftime format has only one-second resolution,
so the two constructed output filenames coincide — concurrent requests in
the same second collide on the acquired file path. -/
theorem C7_counterexample :
    sameSecondA ≠ sameSecondB ∧ sameSecondA.valid ∧ sameSecondB.valid ∧
    outputTemplateName sameSecondA = outputTemplateName sameSecondB := by
  decide

/-- The formatted timestamp determines every calendar field of one-second
resolution or coarser, for well-formed datetime values. -/
theorem strftimeStamp_fields (ta tb : PyDateTime) (ha : ta.valid)
    (hb : tb.valid) (h : strftimeStamp ta = strftimeStamp tb) :
    ta.year = tb.year ∧ ta.month = tb.month ∧ ta.day = tb.day ∧
      ta.hour = tb.hour ∧ ta.minute = tb.minute ∧ ta.second = tb.second := by
  simp only [PyDateTime.valid] at ha hb
  simp only [strftimeStamp, pad4, pad2, List.cons_append, List.nil_append,
    List.cons.injEq, and_true] at h
  refine ⟨?_, ?_, ?_, ?_, ?_, ?_⟩ <;> omega

/-- C7 amended: the timestamp-derived output filenames are distinct
whenever the two acquisition times differ in some field of one-second
resolution or coarser (year, month, day, hour, minute or second); only two
calls within the same calendar second collide. -/
theorem C7_amended (ta tb : PyDateTime) (ha : ta.valid) (hb : tb.valid)
    (hne : ta.year ≠ tb.year ∨ ta.month ≠ tb.month ∨ ta.day ≠ tb.day ∨
      ta.hour ≠ tb.hour ∨ ta.minute ≠ tb.minute ∨ ta.second ≠ tb.second) :
    outputTemplateName ta ≠ outputTemplateName tb := by
  intro h
  simp only [outputTemplateName, codesOf] at h
  have h2 : strftimeStamp ta ++ (".%(ext)s").toList.map Char.toNat
      = strftimeStamp tb ++ (".%(ext)s").toList.map Char.toNat := by
    simpa using h
  have hstamp : strftimeStamp ta = strftimeStamp tb :=
    List.append_cancel_right h2
  have hf := strftimeStamp_fields ta tb ha hb hstamp
  rcases hne with hx | hx | hx | hx | hx | hx
  · exact hx hf.1
  · exact hx hf.2.1
  · exact hx hf.2.2.1
  · exact hx hf.2.2.2.1
  · exact hx hf.2.2.2.2.1
  · exact hx hf.2.2.2.2.2

/-- Instantiation of C7_amended at two concrete times one second apart. -/
theorem C7_witness :
    outputTemplateName ⟨2024, 1, 1, 0, 0, 0, 0⟩
      ≠ outputTemplateName ⟨2024, 1, 1, 0, 0, 1, 0⟩ :=
  C7_amended ⟨2024, 1, 1, 0, 0, 0, 0⟩ ⟨2024, 1, 1, 0, 0, 1, 0⟩
    (by decide) (by decide)
    (Or.inr (Or.inr (Or.inr (Or.inr (Or.inr (by decide))))))

end Podcast
